import Mathlib

/-!
Shallow embedding of the `apper` repository's API layer
(`src/api/src/fastapi/v1`): the OCAPI mock-calculation service
(`ocapi.py`), the customer / address / contract / vehicle CRUD services
(`customer.py`, `address.py`, `contract.py`, `vehicle.py`) and the route
layer (`routes.py`).

Conventions of the embedding:
* Python floats are modelled as rationals (`ℚ`); Unix timestamps as `ℕ`
  (each call to `datetime.utcnow` is an explicit `now` parameter).
* `Optional[T]` is `Option T`; pydantic string enums are inductive types
  together with a `value` function giving the member's string value.
* The relational store (one SQLAlchemy session over the declared tables)
  is an explicit `Store` value threaded through the mutating operations;
  autoincrement primary keys are modelled with per-table counters.
* Constraints declared on the ORM models (UNIQUE, FOREIGN KEY) are
  enforced by the relational engine at commit time; the embedding makes
  them explicit checks in the corresponding `create_*` functions.
-/

namespace Ocapi

/-- ISO 3166-1 alpha-2 country codes for enabled markets (`ocapi.py`, class `MarketCode`). -/
inductive MarketCode where
  | AT | AU | BE | CH | CZ | DE | DK | ES | FR | GB | HU | IN | IT | JP | KR
  | LU | MX | MY | NL | NZ | PL | PT | RO | SE | SG | SK | TH | TR | TW | ZA
  deriving DecidableEq

/-- The `.value` of a `MarketCode` member. -/
def MarketCode.value : MarketCode → String
  | .AT => "at" | .AU => "au" | .BE => "be" | .CH => "ch" | .CZ => "cz"
  | .DE => "de" | .DK => "dk" | .ES => "es" | .FR => "fr" | .GB => "gb"
  | .HU => "hu" | .IN => "in" | .IT => "it" | .JP => "jp" | .KR => "kr"
  | .LU => "lu" | .MX => "mx" | .MY => "my" | .NL => "nl" | .NZ => "nz"
  | .PL => "pl" | .PT => "pt" | .RO => "ro" | .SE => "se" | .SG => "sg"
  | .SK => "sk" | .TH => "th" | .TR => "tr" | .TW => "tw" | .ZA => "za"

/-- Type of customer (`ocapi.py`, class `CustomerType`). -/
inductive CustomerType where
  | PRIVATE | BUSINESS
  deriving DecidableEq

/-- The `.value` of a `CustomerType` member. -/
def CustomerType.value : CustomerType → String
  | .PRIVATE => "private"
  | .BUSINESS => "business"

/-- Product type (`ocapi.py`, class `ProductType`). -/
inductive ProductType where
  | LEASING | FINANCING
  deriving DecidableEq

/-- The `.value` of a `ProductType` member. -/
def ProductType.value : ProductType → String
  | .LEASING => "leasing"
  | .FINANCING => "financing"

/-- Sub-product type (`ocapi.py`, class `SubProductType`). -/
inductive SubProductType where
  | FINANCING_STANDARD | FINANCING_BALLOON | FINANCING_OPTION
  | LEASING_OPERATING | LEASING_OPERATING_OPTIONS
  | LEASING_FINANCE | LEASING_FINANCE_OPTIONS | LEASING_FINANCE_BALLOON
  deriving DecidableEq

/-- Division of the vehicle (`ocapi.py`, class `VehicleDivision`). -/
inductive VehicleDivision where
  | PC | CV | VAN
  deriving DecidableEq

/-- Brand name of the vehicle (`ocapi.py`, class `VehicleBrand`). -/
inductive VehicleBrand where
  | MERCEDES_BENZ | MERCEDES_AMG | SMART | OTHER
  deriving DecidableEq

/-- Condition of the vehicle (`ocapi.py`, class `VehicleCondition`). -/
inductive VehicleCondition where
  | NEW | USED | DEMONSTRATOR
  deriving DecidableEq

/-- The `.value` of a `VehicleCondition` member. -/
def VehicleCondition.value : VehicleCondition → String
  | .NEW => "new"
  | .USED => "used"
  | .DEMONSTRATOR => "demonstrator"

/-- Information about charges (`ocapi.py`, class `ChargeInfo`); the `type`
field's closed string `Literal` is modelled as a plain string. -/
structure ChargeInfo where
  label : Option String := none
  rawRate : Option ℚ := none
  rawAmount : Option ℚ := none
  exemptionAmount : Option ℚ := none
  type : Option String := none
  deriving DecidableEq

/-- Price information with charges (`ocapi.py`, class `PriceInfo`). -/
structure PriceInfo where
  id : String
  currency : String
  rawValue : ℚ
  charges : List ChargeInfo := []
  deriving DecidableEq

/-- Vehicle equipment (`ocapi.py`, class `Equipment`). -/
structure Equipment where
  code : Option String := none
  codeType : Option String := none
  name : Option String := none
  prices : Option (List PriceInfo) := none
  deriving DecidableEq

/-- Vehicle configuration details (`ocapi.py`, class `VehicleConfiguration`). -/
structure VehicleConfiguration where
  division : Option VehicleDivision := none
  brand : Option VehicleBrand := none
  baumuster : Option String := none
  nst : Option String := none
  modelYear : Option String := none
  changeYear : Option String := none
  salesClass : Option String := none
  salesDescription : Option String := none
  equipments : List Equipment := []
  deriving DecidableEq

/-- Vehicle condition information (`ocapi.py`, class `VehicleConditionInfo`). -/
structure VehicleConditionInfo where
  firstRegistrationDate : Option String := none
  condition : Option VehicleCondition := none
  isBts : Option Bool := none
  deriving DecidableEq

/-- Vehicle information for calculation (`ocapi.py`, class `Vehicle`). -/
structure Vehicle where
  technicalIdReference : Option String := none
  dealId : Option String := none
  fin : Option String := none
  vehicleConfiguration : Option VehicleConfiguration := none
  condition : Option VehicleConditionInfo := none
  name : Option String := none
  prices : List PriceInfo := []
  financialCode : Option String := none
  deriving DecidableEq

/-- Customer information for calculation (`ocapi.py`, class `Customer`). -/
structure Customer where
  type : Option CustomerType := none
  segmentId : Option String := none
  fleetAccountNumber : Option String := none
  productType : Option ProductType := none
  subProductType : Option SubProductType := none
  regionCode : Option String := none
  deriving DecidableEq

/-- Financial input parameter (`ocapi.py`, class `FinancialParameter`). -/
structure FinancialParameter where
  id : String
  value : String
  deriving DecidableEq

/-- Request model for an OCAPI calculation (`ocapi.py`, class
`CalculationRequest`); the source field `opaque` is a Lean keyword and is
spelled `opaque_` here. -/
structure CalculationRequest where
  vehicle : Vehicle
  customer : Option Customer := none
  input : List FinancialParameter := []
  opaque_ : Option String := none
  deriving DecidableEq

/-- Single value with formatting information (`ocapi.py`, class `SingleValue`). -/
structure SingleValue where
  label : Option String := none
  label2 : Option String := none
  teaserText : Option String := none
  value : Option String := none
  unitFormatted : Option String := none
  unit : Option String := none
  selected : Option Bool := none
  format : Option String := none
  info : Option String := none
  deriving DecidableEq

/-- Input field definition (`ocapi.py`, class `InputField`); the closed
string `Literal` of `type` is modelled as a plain string. -/
structure InputField where
  type : String
  subtype : Option String := none
  businessContext : Option String := none
  label : Option String := none
  id : Option String := none
  values : List SingleValue := []
  value : Option SingleValue := none
  minValue : Option SingleValue := none
  maxValue : Option SingleValue := none
  step : Option ℚ := none
  unitFormatted : Option String := none
  highlight : Option Bool := none
  message : Option String := none
  info : Option String := none
  editable : Option Bool := none
  deriving DecidableEq

/-- Container for input fields (`ocapi.py`, class `InputContainer`); an
inductive because the source type nests itself under `childContainers`. -/
inductive InputContainer where
  | mk (id : Option String) (label : Option String)
       (items : List InputField) (childContainers : List InputContainer)

/-- Row in financing result output (`ocapi.py`, class `FinancingResultRow`). -/
structure FinancingResultRow where
  id : Option String := none
  disclaimer : Option String := none
  highlight : Option Bool := none
  infoTextKey : Option String := none
  label : Option String := none
  value : Option String := none
  subtype : Option String := none
  businessValue : Option String := none
  unitFormatted : Option String := none
  unit : Option String := none
  deriving DecidableEq

/-- Container for output results (`ocapi.py`, class `OutputContainer`); an
inductive because the source type nests itself under `childContainers`. -/
inductive OutputContainer where
  | mk (id : Option String) (label : Option String)
       (items : List FinancingResultRow) (childContainers : List OutputContainer)

/-- The `id` field of an `OutputContainer`. -/
def OutputContainer.id : OutputContainer → Option String
  | .mk i _ _ _ => i

/-- The `label` field of an `OutputContainer`. -/
def OutputContainer.label : OutputContainer → Option String
  | .mk _ l _ _ => l

/-- The `items` field of an `OutputContainer`. -/
def OutputContainer.items : OutputContainer → List FinancingResultRow
  | .mk _ _ its _ => its

/-- The `childContainers` field of an `OutputContainer`. -/
def OutputContainer.childContainers : OutputContainer → List OutputContainer
  | .mk _ _ _ cs => cs

/-- Link definition (`ocapi.py`, class `Link`). -/
structure Link where
  label : Option String := none
  url : Option String := none
  id : Option String := none
  classification : Option String := none
  deriving DecidableEq

/-- Financing product information (`ocapi.py`, class `FinancingProduct`). -/
structure FinancingProduct where
  id : Option String := none
  label : Option String := none
  externalPosId : Option String := none
  customerType : Option CustomerType := none
  productType : Option ProductType := none
  subProductType : Option SubProductType := none
  isCampaign : Option Bool := none
  campaignLabel : Option String := none
  campaignInfo : Option String := none
  campaignId : Option String := none
  deriving DecidableEq

/-- Calculation output (`ocapi.py`, class `Output`). -/
structure Output where
  financialCode : Option String := none
  currency : Option String := none
  widgetTitle : Option String := none
  rate : Option String := none
  rateData : Option ℚ := none
  messages : List String := []
  financingProduct : Option FinancingProduct := none
  containers : List OutputContainer := []
  links : List Link := []

/-- Response model for an OCAPI calculation (`ocapi.py`, class
`CalculationResponse`); the untyped `Optional[List]` of `tables` is
modelled over `String`, and the source field `opaque` is a Lean keyword
and is spelled `opaque_` here. -/
structure CalculationResponse where
  output : Option Output := none
  input : Option InputContainer := none
  tables : Option (List String) := none
  code : Option Int := none
  type : Option String := none
  message : Option String := none
  opaque_ : Option String := none

/-- Database row of the `ocapi_calculations` table (`ocapi.py`, class
`OCAPICalculationModel`).  The JSON dumps `request_payload` and
`response_payload` are modelled as the dumped values themselves
(`model_dump` is injective on the models involved, so the copy of the
payload is represented by the payload). -/
structure OCAPICalculationModel where
  id : Nat
  market : String
  customer_type : Option String := none
  product_type : Option String := none
  vehicle_name : Option String := none
  vehicle_baumuster : Option String := none
  vehicle_nst : Option String := none
  vehicle_condition : Option String := none
  gross_list_price : Option ℚ := none
  currency : Option String := none
  calculated_rate : Option ℚ := none
  financial_code : Option String := none
  request_payload : Option CalculationRequest := none
  response_payload : Option CalculationResponse := none
  opaque_token : Option String := none
  accept_language : Option String := none
  user_agent : Option String := none
  request_id : Option String := none
  created_at : Nat
  updated_at : Nat

/-- The scan of `perform_calculation` (`ocapi.py` lines 406-413) over the
vehicle's price list: the first entry whose `id` equals
`"grossListPrice"`, from which both `gross_price` and `currency` are
taken before the loop breaks.  (The source's `if vehicle.prices:` guard
is subsumed by the empty-list case.) -/
def findGrossListPrice : List PriceInfo → Option PriceInfo
  | [] => none
  | price :: rest =>
      if price.id = "grossListPrice" then some price else findGrossListPrice rest

/-- Python's fixed-point rendering `f"{x:.2f}"`: the value rounded to two
decimal places (ties away from zero; every value formatted by this
development is an exact multiple of 1/100, where all rounding modes
agree) and printed with exactly two fractional digits. -/
def format2f (q : ℚ) : String :=
  let sign := if q.num < 0 then "-" else ""
  let n : Int := (2 * (q.num.natAbs : Int) * 100 + (q.den : Int)) / (2 * (q.den : Int))
  let whole : Int := n / 100
  let frac : Int := n % 100
  sign ++ toString whole ++ "." ++ (if frac < 10 then "0" else "") ++ toString frac

end Ocapi

/-- Valid country codes (`address.py`, class `CountryEnum`). -/
inductive CountryEnum where
  | DE | CN | CH
  deriving DecidableEq

/-- The `.value` of a `CountryEnum` member. -/
def CountryEnum.value : CountryEnum → String
  | .DE => "Germany"
  | .CN => "China"
  | .CH => "Switzerland"

/-- A customer row/record (`customer.py`, classes `CustomerModel` and
`Customer`; the two share their scalar fields, which is what the service
functions read and write). -/
structure Customer where
  id : Nat
  firstName : String
  lastName : String
  mobileNumber : Option String := none
  email : Option String := none
  createdAt : Nat
  updatedAt : Nat
  deriving DecidableEq

/-- An address row/record (`address.py`, classes `AddressModel` and
`Address`). -/
structure Address where
  id : Nat
  street : String
  city : String
  state : Option String := none
  postalCode : String
  country : CountryEnum
  isPrimary : Bool
  customerId : Nat
  createdAt : Nat
  updatedAt : Nat
  deriving DecidableEq

/-- A contract row/record (`contract.py`, classes `ContractModel` and
`Contract`); dates are Unix timestamps, the numeric `value` a rational. -/
structure Contract where
  id : Nat
  contractNumber : String
  description : Option String := none
  startDate : Nat
  endDate : Option Nat := none
  value : ℚ
  isActive : Bool := true
  customerId : Nat
  createdAt : Nat
  updatedAt : Nat
  deriving DecidableEq

/-- A vehicle row (`vehicle.py`, class `VehicleModel`).  Apart from the
primary key and the two timestamp columns, the columns are modelled
uniformly as a binding list from column name to nullable value (numbers,
booleans, enum members and JSON blobs rendered as strings): the service
code treats them generically — `update_vehicle` iterates over the
name/value pairs of `model_dump(exclude_unset=True)` and `setattr`s each
one — and no claim depends on the typed content of an individual column.
A `VehicleCreate` payload is correspondingly a binding list of the
explicitly-set fields. -/
structure VehicleModel where
  id : Nat
  attrs : List (String × Option String)
  created_at : Nat
  updated_at : Nat
  deriving DecidableEq

/-- Read a column of a vehicle row by name: `none` when the row has no
such column, `some v` for a column holding the nullable value `v`
(Python `getattr`). -/
def lookupAttr : List (String × Option String) → String → Option (Option String)
  | [], _ => none
  | (g, y) :: rest, f => if g == f then some y else lookupAttr rest f

/-- Overwrite the (first) binding of a column by name, leaving every
other binding unchanged (Python `setattr` on an existing attribute). -/
def setAttr : List (String × Option String) → String → Option String → List (String × Option String)
  | [], _, _ => []
  | (g, y) :: rest, f, val =>
      if g == f then (g, val) :: rest else (g, y) :: setAttr rest f val

/-- The field-update loop of `update_vehicle` (`vehicle.py` lines
322-327): for each provided name/value pair, if the row has the
attribute (`hasattr`), overwrite it; pairs naming no attribute of the
row are skipped.  (The enum coercion `value.value if isinstance(value,
Enum) else value` is the identity here because enum members are
represented by their string values.) -/
def applyFields (attrs : List (String × Option String)) :
    List (String × Option String) → List (String × Option String)
  | [] => attrs
  | (f, val) :: rest =>
      if (lookupAttr attrs f).isSome then applyFields (setAttr attrs f val) rest
      else applyFields attrs rest

/-- The database state reachable through `DB_SESSION` (`database.py`):
one list per declared table, in insertion order, plus the autoincrement
counter of each table's primary key. -/
structure Store where
  customers : List Customer
  addresses : List Address
  contracts : List Contract
  vehicles : List VehicleModel
  calculations : List Ocapi.OCAPICalculationModel
  nextCustomerId : Nat
  nextAddressId : Nat
  nextContractId : Nat
  nextVehicleId : Nat
  nextCalculationId : Nat

/-- The empty database, as created by `Base.metadata.create_all`
(`routes.py` line 37). -/
def initStore : Store :=
  { customers := [], addresses := [], contracts := [], vehicles := [],
    calculations := [],
    nextCustomerId := 1, nextAddressId := 1, nextContractId := 1,
    nextVehicleId := 1, nextCalculationId := 1 }

/-- Constraint violations raised by the relational engine at commit. -/
inductive DbError where
  | uniqueViolation
  | foreignKeyViolation
  deriving DecidableEq

/-! ### customer.py service functions -/

/-- Create a customer (`customer.py`, `create_customer`): copies the
scalar fields of the payload (the payload's `id` and timestamps are not
copied; the database assigns the key and `utcnow` the timestamps). -/
def create_customer (firstName lastName : String) (mobileNumber email : Option String)
    (now : Nat) (st : Store) : Customer × Store :=
  let db_customer : Customer :=
    { id := st.nextCustomerId, firstName := firstName, lastName := lastName,
      mobileNumber := mobileNumber, email := email,
      createdAt := now, updatedAt := now }
  (db_customer,
   { st with customers := st.customers ++ [db_customer],
             nextCustomerId := st.nextCustomerId + 1 })

/-- Return all customers (`customer.py`, `get_all_customers`). -/
def get_all_customers (st : Store) : List Customer :=
  st.customers

/-- Look a customer up by primary key (`customer.py`,
`get_customer_by_id`): `query(...).filter(id == customer_id).first()`. -/
def get_customer_by_id (customer_id : Nat) (st : Store) : Option Customer :=
  st.customers.find? (fun c => c.id == customer_id)

/-! ### address.py service functions -/

/-- Create an address (`address.py`, `create_address`): copies the
payload's fields except `id` and the timestamps.  The commit enforces
the FOREIGN KEY `addresses.customerId → customers.id` declared at
`address.py` line 27. -/
def create_address (address_data : Address) (now : Nat) (st : Store) :
    Except DbError Address × Store :=
  if (st.customers.find? (fun c => c.id == address_data.customerId)).isSome then
    let db_address : Address :=
      { id := st.nextAddressId, street := address_data.street,
        city := address_data.city, state := address_data.state,
        postalCode := address_data.postalCode, country := address_data.country,
        isPrimary := address_data.isPrimary, customerId := address_data.customerId,
        createdAt := now, updatedAt := now }
    (Except.ok db_address,
     { st with addresses := st.addresses ++ [db_address],
               nextAddressId := st.nextAddressId + 1 })
  else
    (Except.error DbError.foreignKeyViolation, st)

/-- Return all addresses (`address.py`, `get_all_addresses`). -/
def get_all_addresses (st : Store) : List Address :=
  st.addresses

/-- Look an address up by primary key (`address.py`, `get_address_by_id`). -/
def get_address_by_id (address_id : Nat) (st : Store) : Option Address :=
  st.addresses.find? (fun a => a.id == address_id)

/-- All addresses of one customer (`address.py`,
`get_addresses_by_customer`): `filter(customerId == customer_id).all()`. -/
def get_addresses_by_customer (customer_id : Nat) (st : Store) : List Address :=
  st.addresses.filter (fun a => a.customerId == customer_id)

/-! ### contract.py service functions -/

/-- Create a contract (`contract.py`, `create_contract`): copies the
payload's fields except `id` and the timestamps.  The commit enforces
the UNIQUE constraint on `contracts.contractNumber` (`contract.py` line
13) and the FOREIGN KEY `contracts.customerId → customers.id`
(`contract.py` line 19). -/
def create_contract (contract_data : Contract) (now : Nat) (st : Store) :
    Except DbError Contract × Store :=
  if st.contracts.any (fun k => k.contractNumber == contract_data.contractNumber) then
    (Except.error DbError.uniqueViolation, st)
  else if (st.customers.find? (fun c => c.id == contract_data.customerId)).isSome then
    let db_contract : Contract :=
      { id := st.nextContractId, contractNumber := contract_data.contractNumber,
        description := contract_data.description,
        startDate := contract_data.startDate, endDate := contract_data.endDate,
        value := contract_data.value, isActive := contract_data.isActive,
        customerId := contract_data.customerId,
        createdAt := now, updatedAt := now }
    (Except.ok db_contract,
     { st with contracts := st.contracts ++ [db_contract],
               nextContractId := st.nextContractId + 1 })
  else
    (Except.error DbError.foreignKeyViolation, st)

/-- Return all contracts (`contract.py`, `get_all_contracts`). -/
def get_all_contracts (st : Store) : List Contract :=
  st.contracts

/-- Look a contract up by primary key (`contract.py`, `get_contract_by_id`). -/
def get_contract_by_id (contract_id : Nat) (st : Store) : Option Contract :=
  st.contracts.find? (fun k => k.id == contract_id)

/-- All contracts of one customer (`contract.py`,
`get_contracts_by_customer`): `filter(customerId == customer_id).all()`. -/
def get_contracts_by_customer (customer_id : Nat) (st : Store) : List Contract :=
  st.contracts.filter (fun k => k.customerId == customer_id)

/-! ### vehicle.py service functions -/

/-- Create a vehicle (`vehicle.py`, `create_vehicle`): builds a row from
the payload column by column; in the binding-list representation this
copies the payload's bindings and lets the database assign the key and
`utcnow` the timestamps. -/
def create_vehicle (vehicle_data : List (String × Option String)) (now : Nat)
    (st : Store) : VehicleModel × Store :=
  let db_vehicle : VehicleModel :=
    { id := st.nextVehicleId, attrs := vehicle_data,
      created_at := now, updated_at := now }
  (db_vehicle,
   { st with vehicles := st.vehicles ++ [db_vehicle],
             nextVehicleId := st.nextVehicleId + 1 })

/-- Return all vehicles (`vehicle.py`, `get_all_vehicles`). -/
def get_all_vehicles (st : Store) : List VehicleModel :=
  st.vehicles

/-- Look a vehicle up by primary key (`vehicle.py`, `get_vehicle_by_id`). -/
def get_vehicle_by_id (vehicle_id : Nat) (st : Store) : Option VehicleModel :=
  st.vehicles.find? (fun v => v.id == vehicle_id)

/-- Vehicles with a given FIN (`vehicle.py`, `get_vehicles_by_fin`); rows
whose `fin` column is NULL do not satisfy the SQL equality. -/
def get_vehicles_by_fin (fin : String) (st : Store) : List VehicleModel :=
  st.vehicles.filter (fun v => lookupAttr v.attrs "fin" == some (some fin))

/-- Vehicles with a given Baumuster (`vehicle.py`, `get_vehicles_by_baumuster`). -/
def get_vehicles_by_baumuster (baumuster : String) (st : Store) : List VehicleModel :=
  st.vehicles.filter (fun v => lookupAttr v.attrs "baumuster" == some (some baumuster))

/-- Vehicles with a given condition (`vehicle.py`, `get_vehicles_by_condition`). -/
def get_vehicles_by_condition (condition : Ocapi.VehicleCondition) (st : Store) :
    List VehicleModel :=
  st.vehicles.filter (fun v => lookupAttr v.attrs "condition" == some (some condition.value))

/-- Replace the first row with the given key (the row object that
`query(...).first()` returned and the session flushed back). -/
def replaceFirstVehicle : List VehicleModel → Nat → VehicleModel → List VehicleModel
  | [], _, _ => []
  | v :: rest, vid, v2 =>
      if v.id == vid then v2 :: rest else v :: replaceFirstVehicle rest vid v2

/-- Remove the first row with the given key (the row object that
`query(...).first()` returned and `DB_SESSION.delete` removed). -/
def eraseFirstVehicle : List VehicleModel → Nat → List VehicleModel
  | [], _ => []
  | v :: rest, vid =>
      if v.id == vid then rest else v :: eraseFirstVehicle rest vid

/-- Update a vehicle (`vehicle.py`, `update_vehicle`): look the row up by
key; if absent return `None` leaving the store unchanged; otherwise
overwrite each provided field that names an attribute of the row, set
`updated_at` to now, and commit the modified row. -/
def update_vehicle (vehicle_id : Nat) (vehicle_data : List (String × Option String))
    (now : Nat) (st : Store) : Option VehicleModel × Store :=
  match st.vehicles.find? (fun v => v.id == vehicle_id) with
  | none => (none, st)
  | some db_vehicle =>
      let v2 : VehicleModel :=
        { db_vehicle with attrs := applyFields db_vehicle.attrs vehicle_data,
                          updated_at := now }
      (some v2, { st with vehicles := replaceFirstVehicle st.vehicles vehicle_id v2 })

/-- Delete a vehicle (`vehicle.py`, `delete_vehicle`): look the row up by
key; if absent return `False` leaving the store unchanged; otherwise
remove that row and return `True`. -/
def delete_vehicle (vehicle_id : Nat) (st : Store) : Bool × Store :=
  match st.vehicles.find? (fun v => v.id == vehicle_id) with
  | none => (false, st)
  | some _ => (true, { st with vehicles := eraseFirstVehicle st.vehicles vehicle_id })

/-! ### ocapi.py service functions -/

namespace Ocapi

/-- The mock OCAPI calculation (`ocapi.py`, `perform_calculation`):
derive gross price and currency from the vehicle's price list, compute
the placeholder monthly rate, build the mock response, and persist an
audit row; returns the response together with the committed store.  Both
`datetime.utcnow()` readings are the `now` parameter. -/
def perform_calculation (market : MarketCode) (calculation_request : CalculationRequest)
    (accept_language user_agent request_id : Option String) (now : Nat) (st : Store) :
    CalculationResponse × Store :=
  let vehicle := calculation_request.vehicle
  let customer := calculation_request.customer
  -- Extract prices: first entry with id "grossListPrice", if any
  let found := findGrossListPrice vehicle.prices
  let gross_price : Option ℚ := found.map PriceInfo.rawValue
  let currency : String :=
    match found with
    | some price => price.currency
    | none => "EUR"
  -- Mock calculation: `(gross_price / 36) if gross_price else 500.0`;
  -- Python truthiness makes both a missing and a zero gross price take
  -- the fallback branch
  let mock_rate : ℚ :=
    match gross_price with
    | some g => if g = 0 then 500 else g / 36
    | none => 500
  let mock_financial_code : String := "mock_" ++ market.value ++ "_" ++ toString now
  let mock_output : Output :=
    { financialCode := some mock_financial_code,
      currency := some currency,
      widgetTitle := some ("Mercedes-Benz Bank | Calculator [" ++ market.value.toUpper ++ "]"),
      rate := some (format2f mock_rate ++ " " ++ currency),
      rateData := some mock_rate,
      messages := [],
      financingProduct := some
        { id := some "1",
          label := some "Standard Financing",
          customerType :=
            match customer with
            | some c => c.type
            | none => some CustomerType.PRIVATE,
          productType := some ProductType.FINANCING,
          subProductType := some SubProductType.FINANCING_STANDARD,
          isCampaign := some false },
      containers :=
        [OutputContainer.mk (some "output") (some "Calculation Result")
          [{ id := some "monthlyRate",
             label := some "Monthly Rate",
             value := some (format2f mock_rate ++ " " ++ currency),
             businessValue := some (format2f mock_rate),
             subtype := some "currency",
             unitFormatted := some currency,
             highlight := some true },
           { id := some "term",
             label := some "Term",
             value := some "36 months",
             businessValue := some "36",
             subtype := some "number",
             unitFormatted := some "months" }]
          []],
      links :=
        [{ id := some "close",
           label := some "Close",
           url := some "#",
           classification := some "default" }] }
  let response : CalculationResponse :=
    { output := some mock_output,
      code := some 200,
      type := some "success",
      message := some "Calculation successful (mock)",
      opaque_ := some ("mock_opaque_" ++ toString now) }
  let db_calc : OCAPICalculationModel :=
    { id := st.nextCalculationId,
      market := market.value,
      customer_type :=
        match customer with
        | some c => c.type.map CustomerType.value
        | none => none,
      product_type :=
        match customer with
        | some c => c.productType.map ProductType.value
        | none => none,
      vehicle_name := vehicle.name,
      vehicle_baumuster :=
        match vehicle.vehicleConfiguration with
        | some vc => vc.baumuster
        | none => none,
      vehicle_nst :=
        match vehicle.vehicleConfiguration with
        | some vc => vc.nst
        | none => none,
      vehicle_condition :=
        match vehicle.condition with
        | some ci => ci.condition.map VehicleCondition.value
        | none => none,
      gross_list_price := gross_price,
      currency := some currency,
      calculated_rate := some mock_rate,
      financial_code := some mock_financial_code,
      request_payload := some calculation_request,
      response_payload := some response,
      opaque_token := response.opaque_,
      accept_language := accept_language,
      user_agent := user_agent,
      request_id := request_id,
      created_at := now,
      updated_at := now }
  (response,
   { st with calculations := st.calculations ++ [db_calc],
             nextCalculationId := st.nextCalculationId + 1 })

/-- Return all audit rows (`ocapi.py`, `get_all_calculations`). -/
def get_all_calculations (st : Store) : List OCAPICalculationModel :=
  st.calculations

/-- Look an audit row up by primary key (`ocapi.py`, `get_calculation_by_id`). -/
def get_calculation_by_id (calculation_id : Nat) (st : Store) :
    Option OCAPICalculationModel :=
  st.calculations.find? (fun r => r.id == calculation_id)

/-- Audit rows of one market (`ocapi.py`, `get_calculations_by_market`). -/
def get_calculations_by_market (market : String) (st : Store) :
    List OCAPICalculationModel :=
  st.calculations.filter (fun r => r.market == market)

/-- Audit rows of one request id (`ocapi.py`, `get_calculations_by_request_id`). -/
def get_calculations_by_request_id (request_id : String) (st : Store) :
    List OCAPICalculationModel :=
  st.calculations.filter (fun r => r.request_id == some request_id)

end Ocapi

/-! ### routes.py — the route layer

Read endpoints translate absence into an `HTTPException` with status
404, modelled as `Except.error 404`; the store is untouched by reads, so
read endpoints return only the outcome. -/

/-- `GET /customers/{customer_id}` (`routes.py`, `get_customer_by_id_endpoint`). -/
def get_customer_by_id_endpoint (customer_id : Nat) (st : Store) : Except Nat Customer :=
  match get_customer_by_id customer_id st with
  | none => Except.error 404
  | some customer => Except.ok customer

/-- `GET /addresses/{address_id}` (`routes.py`, `get_address_by_id_endpoint`). -/
def get_address_by_id_endpoint (address_id : Nat) (st : Store) : Except Nat Address :=
  match get_address_by_id address_id st with
  | none => Except.error 404
  | some address => Except.ok address

/-- `GET /contracts/{contract_id}` (`routes.py`, `get_contract_by_id_endpoint`). -/
def get_contract_by_id_endpoint (contract_id : Nat) (st : Store) : Except Nat Contract :=
  match get_contract_by_id contract_id st with
  | none => Except.error 404
  | some contract => Except.ok contract

/-- `GET /vehicles/{vehicle_id}` (`routes.py`, `get_vehicle_by_id_endpoint`). -/
def get_vehicle_by_id_endpoint (vehicle_id : Nat) (st : Store) : Except Nat VehicleModel :=
  match get_vehicle_by_id vehicle_id st with
  | none => Except.error 404
  | some vehicle => Except.ok vehicle

/-- `GET /customers/{customer_id}/addresses` (`routes.py`,
`get_customer_addresses`, lines 124-144): after the customer existence
check the handler returns `get_contracts_by_customer(customer_id)` — the
customer's contracts — although its docstring, its route and the
imported-but-unused `get_addresses_by_customer` all speak of addresses. -/
def get_customer_addresses (customer_id : Nat) (st : Store) : Except Nat (List Contract) :=
  match get_customer_by_id customer_id st with
  | none => Except.error 404
  | some _ => Except.ok (get_contracts_by_customer customer_id st)

/-- `GET /customers/{customer_id}/contracts` (`routes.py`,
`get_customer_contracts`). -/
def get_customer_contracts (customer_id : Nat) (st : Store) : Except Nat (List Contract) :=
  match get_customer_by_id customer_id st with
  | none => Except.error 404
  | some _ => Except.ok (get_contracts_by_customer customer_id st)

/-- `PUT /vehicles/{vehicle_id}` (`routes.py`, `update_vehicle_endpoint`). -/
def update_vehicle_endpoint (vehicle_id : Nat) (vehicle_data : List (String × Option String))
    (now : Nat) (st : Store) : Except Nat VehicleModel × Store :=
  match update_vehicle vehicle_id vehicle_data now st with
  | (none, st2) => (Except.error 404, st2)
  | (some updated_vehicle, st2) => (Except.ok updated_vehicle, st2)

/-- `DELETE /vehicles/{vehicle_id}` (`routes.py`, `delete_vehicle_endpoint`);
`Except.ok ()` models the 204 No Content success. -/
def delete_vehicle_endpoint (vehicle_id : Nat) (st : Store) : Except Nat Unit × Store :=
  match delete_vehicle vehicle_id st with
  | (false, st2) => (Except.error 404, st2)
  | (true, st2) => (Except.ok (), st2)

/-! ### The system's mutating operations

Every route of `routes.py` (and every maintenance script under
`src/scripts`) that writes to the store goes through one of the service
functions below; the read endpoints take the store and return values
only, so they cannot modify it. -/

/-- One mutating request against the API. -/
inductive Op where
  | createCustomer (firstName lastName : String) (mobileNumber email : Option String) (now : Nat)
  | createAddress (address_data : Address) (now : Nat)
  | createContract (contract_data : Contract) (now : Nat)
  | createVehicle (vehicle_data : List (String × Option String)) (now : Nat)
  | updateVehicle (vehicle_id : Nat) (vehicle_data : List (String × Option String)) (now : Nat)
  | deleteVehicle (vehicle_id : Nat)
  | calculate (market : Ocapi.MarketCode) (calculation_request : Ocapi.CalculationRequest)
      (accept_language user_agent request_id : Option String) (now : Nat)

/-- The store after one mutating request. -/
def step : Op → Store → Store
  | Op.createCustomer fn ln mob em now, st => (create_customer fn ln mob em now st).2
  | Op.createAddress a now, st => (create_address a now st).2
  | Op.createContract c now, st => (create_contract c now st).2
  | Op.createVehicle vdata now, st => (create_vehicle vdata now st).2
  | Op.updateVehicle vid vdata now, st => (update_vehicle vid vdata now st).2
  | Op.deleteVehicle vid, st => (delete_vehicle vid st).2
  | Op.calculate m req al ua rid now, st => (Ocapi.perform_calculation m req al ua rid now st).2

/-- The store states reachable from the freshly created schema through
the system's operations. -/
inductive Reachable : Store → Prop where
  | init : Reachable initStore
  | next (op : Op) {st : Store} : Reachable st → Reachable (step op st)

/-! ### Projections used to state the claims -/

/-- The `output.rateData` of a calculation response. -/
def respRateData (r : Ocapi.CalculationResponse) : Option ℚ :=
  r.output.bind Ocapi.Output.rateData

/-- The `output.currency` of a calculation response. -/
def respCurrency (r : Ocapi.CalculationResponse) : Option String :=
  r.output.bind Ocapi.Output.currency

/-- The `output.rate` string of a calculation response. -/
def respRate (r : Ocapi.CalculationResponse) : Option String :=
  r.output.bind Ocapi.Output.rate

/-- The `output.financingProduct.customerType` of a calculation response. -/
def respCustomerType (r : Ocapi.CalculationResponse) : Option Ocapi.CustomerType :=
  (r.output.bind Ocapi.Output.financingProduct).bind Ocapi.FinancingProduct.customerType

/-- A calculation request with the vehicle's price list replaced. -/
def setPrices (req : Ocapi.CalculationRequest) (prices : List Ocapi.PriceInfo) :
    Ocapi.CalculationRequest :=
  { req with vehicle := { req.vehicle with prices := prices } }

/-! ### Concrete fixtures used by witnesses and counterexamples -/

/-- The spec's worked example: a gross-list-price entry of 72000 EUR. -/
def price72000 : Ocapi.PriceInfo :=
  { id := "grossListPrice", currency := "EUR", rawValue := 72000 }

/-- Calculation request carrying only the 72000 EUR gross-list-price entry. -/
def req72000 : Ocapi.CalculationRequest :=
  { vehicle := { prices := [price72000] } }

/-- A gross-list-price entry whose `rawValue` is 0 (and whose currency is
not the default). -/
def priceZero : Ocapi.PriceInfo :=
  { id := "grossListPrice", currency := "USD", rawValue := 0 }

/-- Calculation request carrying only the zero-priced gross-list-price entry. -/
def reqZero : Ocapi.CalculationRequest :=
  { vehicle := { prices := [priceZero] } }

/-- Calculation request with a customer object whose `type` is absent. -/
def reqCustNoType : Ocapi.CalculationRequest :=
  { vehicle := {}, customer := some {} }

/-- A price entry that is not a gross list price. -/
def priceOther : Ocapi.PriceInfo :=
  { id := "baseListPrice", currency := "EUR", rawValue := 60000 }

/-- A second gross-list-price entry, differing from `price72000`. -/
def price48000 : Ocapi.PriceInfo :=
  { id := "grossListPrice", currency := "CHF", rawValue := 48000 }

/-- Calculation request whose price list holds a non-matching entry, then
the 72000 EUR gross-list-price entry, then a second matching entry. -/
def reqShadowed : Ocapi.CalculationRequest :=
  { vehicle := { prices := [priceOther, price72000, price48000] } }

/-- A stored customer with id 1. -/
def customer1 : Customer :=
  { id := 1, firstName := "Ada", lastName := "Lovelace", createdAt := 0, updatedAt := 0 }

/-- A stored address with id 10 belonging to customer 1. -/
def address10 : Address :=
  { id := 10, street := "Main St 1", city := "Berlin", postalCode := "10115",
    country := CountryEnum.DE, isPrimary := true, customerId := 1,
    createdAt := 0, updatedAt := 0 }

/-- A stored contract with id 20 belonging to customer 1. -/
def contract20 : Contract :=
  { id := 20, contractNumber := "C-20", startDate := 0, value := 100,
    customerId := 1, createdAt := 0, updatedAt := 0 }

/-- A store holding customer 1, the customer's address 10 and the
customer's contract 20. -/
def stC2 : Store :=
  { initStore with customers := [customer1], addresses := [address10],
                   contracts := [contract20],
                   nextCustomerId := 2, nextAddressId := 11, nextContractId := 21 }

/-- A contract-creation payload reusing the stored `contractNumber` "C-20". -/
def contractDup : Contract :=
  { id := 0, contractNumber := "C-20", startDate := 7, value := 50,
    customerId := 1, createdAt := 0, updatedAt := 0 }

/-- A stored vehicle with id 7. -/
def vehicle7 : VehicleModel :=
  { id := 7, attrs := [("name", some "GLC 300"), ("fin", none)],
    created_at := 0, updated_at := 0 }

/-- A store holding only vehicle 7. -/
def stC4 : Store :=
  { initStore with vehicles := [vehicle7], nextVehicleId := 8 }

/-- A stored vehicle with id 1, created and last updated at time 5. -/
def vehicle1 : VehicleModel :=
  { id := 1, attrs := [("name", some "A 180"), ("fin", none)],
    created_at := 5, updated_at := 5 }

/-- A store holding only vehicle 1. -/
def stC7 : Store :=
  { initStore with vehicles := [vehicle1], nextVehicleId := 2 }

/-- An update payload that explicitly sets only the `name` column. -/
def dumpName : List (String × Option String) :=
  [("name", some "B 200")]

/-! ### Helper lemmas about the attribute map of a vehicle row -/

theorem lookupAttr_setAttr_isSome (attrs : List (String × Option String))
    (f g : String) (val : Option String) :
    (lookupAttr (setAttr attrs f val) g).isSome = (lookupAttr attrs g).isSome := by
  induction attrs with
  | nil => rfl
  | cons p rest ih =>
      obtain ⟨a, y⟩ := p
      by_cases h1 : a = f
      · subst h1
        by_cases h2 : a = g <;> simp [setAttr, lookupAttr, h2]
      · by_cases h2 : a = g
        · subst h2
          simp [setAttr, lookupAttr, h1]
        · simp [setAttr, lookupAttr, h1, h2, ih]

theorem lookupAttr_setAttr_self (attrs : List (String × Option String))
    (f : String) (val : Option String) (h : (lookupAttr attrs f).isSome) :
    lookupAttr (setAttr attrs f val) f = some val := by
  induction attrs with
  | nil => simp [lookupAttr] at h
  | cons p rest ih =>
      obtain ⟨a, y⟩ := p
      by_cases h1 : a = f
      · simp [setAttr, lookupAttr, h1]
      · simp [setAttr, lookupAttr, h1] at h ⊢
        exact ih h

theorem lookupAttr_setAttr_other (attrs : List (String × Option String))
    (f g : String) (val : Option String) (h : g ≠ f) :
    lookupAttr (setAttr attrs f val) g = lookupAttr attrs g := by
  induction attrs with
  | nil => rfl
  | cons p rest ih =>
      obtain ⟨a, y⟩ := p
      by_cases h1 : a = f
      · subst h1
        simp [setAttr, lookupAttr, Ne.symm h]
      · by_cases h2 : a = g
        · subst h2
          simp [setAttr, lookupAttr, h1]
        · simp [setAttr, lookupAttr, h1, h2, ih]

theorem lookupAttr_applyFields_isSome (l : List (String × Option String))
    (attrs : List (String × Option String)) (g : String) :
    (lookupAttr (applyFields attrs l) g).isSome = (lookupAttr attrs g).isSome := by
  induction l generalizing attrs with
  | nil => rfl
  | cons p rest ih =>
      obtain ⟨f, val⟩ := p
      by_cases h : (lookupAttr attrs f).isSome
      · simp [applyFields, h, ih, lookupAttr_setAttr_isSome]
      · simp [applyFields, h, ih]

theorem lookupAttr_applyFields_not_mem (l : List (String × Option String))
    (attrs : List (String × Option String)) (g : String)
    (hg : g ∉ l.map Prod.fst) :
    lookupAttr (applyFields attrs l) g = lookupAttr attrs g := by
  induction l generalizing attrs with
  | nil => rfl
  | cons p rest ih =>
      obtain ⟨f, val⟩ := p
      simp only [List.map_cons, List.mem_cons, not_or] at hg
      by_cases h : (lookupAttr attrs f).isSome
      · simp only [applyFields, h, if_pos]
        rw [ih _ hg.2, lookupAttr_setAttr_other _ _ _ _ hg.1]
      · simp only [applyFields, h, if_neg, Bool.false_eq_true, not_false_eq_true]
        exact ih _ hg.2

theorem lookupAttr_applyFields_mem (l : List (String × Option String))
    (attrs : List (String × Option String)) (f : String) (val : Option String)
    (hnd : (l.map Prod.fst).Nodup) (hmem : (f, val) ∈ l)
    (hhas : (lookupAttr attrs f).isSome) :
    lookupAttr (applyFields attrs l) f = some val := by
  induction l generalizing attrs with
  | nil => simp at hmem
  | cons p rest ih =>
      obtain ⟨g, w⟩ := p
      simp only [List.map_cons, List.nodup_cons] at hnd
      rcases List.mem_cons.mp hmem with heq | htail
      · obtain ⟨hf, hw⟩ := Prod.mk.injEq .. ▸ heq
        subst hf; subst hw
        simp only [applyFields, hhas, if_pos]
        rw [lookupAttr_applyFields_not_mem _ _ _ hnd.1]
        exact lookupAttr_setAttr_self _ _ _ hhas
      · have hfg : f ≠ g := by
          intro hc
          exact hnd.1 (hc ▸ List.mem_map_of_mem Prod.fst htail)
        by_cases h : (lookupAttr attrs g).isSome
        · simp only [applyFields, h, if_pos]
          exact ih _ hnd.2 htail
            (by rw [lookupAttr_setAttr_other _ _ _ _ hfg]; exact hhas)
        · simp only [applyFields, h, if_neg, Bool.false_eq_true, not_false_eq_true]
          exact ih _ hnd.2 htail hhas

/-! ### Helper lemmas about lookup and removal of vehicle rows -/

theorem find?_eq_none_of_not_mem_ids (l : List VehicleModel) (vid : Nat)
    (h : vid ∉ l.map VehicleModel.id) :
    l.find? (fun v => v.id == vid) = none := by
  refine List.find?_eq_none.mpr ?_
  intro v hv
  simp only [beq_iff_eq]
  intro hc
  exact h (hc ▸ List.mem_map_of_mem VehicleModel.id hv)

theorem find?_eraseFirstVehicle (l : List VehicleModel) (vid : Nat)
    (hnd : (l.map VehicleModel.id).Nodup) :
    (eraseFirstVehicle l vid).find? (fun v => v.id == vid) = none := by
  induction l with
  | nil => rfl
  | cons v rest ih =>
      simp only [List.map_cons, List.nodup_cons] at hnd
      by_cases h : v.id = vid
      · simp only [eraseFirstVehicle, h, beq_self_eq_true, if_pos]
        exact find?_eq_none_of_not_mem_ids rest vid (h ▸ hnd.1)
      · simp only [eraseFirstVehicle, beq_iff_eq, h, if_neg, not_false_eq_true]
        rw [List.find?_cons_of_neg _ (by simp [h])]
        exact ih hnd.2

/-! ### Helper lemma about the gross-list-price scan -/

theorem findGrossListPrice_first (l1 l2 : List Ocapi.PriceInfo) (e : Ocapi.PriceInfo)
    (h1 : ∀ p ∈ l1, p.id ≠ "grossListPrice") (he : e.id = "grossListPrice") :
    Ocapi.findGrossListPrice (l1 ++ e :: l2) = some e := by
  induction l1 with
  | nil => simp [Ocapi.findGrossListPrice, he]
  | cons p rest ih =>
      simp only [List.cons_append, Ocapi.findGrossListPrice,
        h1 p (List.mem_cons_self p rest), if_neg, not_false_eq_true]
      exact ih (fun q hq => h1 q (List.mem_cons_of_mem p hq))

/-! ### Characterisation of the calculation response's rate and currency -/

theorem perform_calculation_rateData (market : Ocapi.MarketCode)
    (req : Ocapi.CalculationRequest) (al ua rid : Option String) (now : Nat) (st : Store) :
    respRateData (Ocapi.perform_calculation market req al ua rid now st).1 =
      some (match (Ocapi.findGrossListPrice req.vehicle.prices).map Ocapi.PriceInfo.rawValue with
            | some g => if g = 0 then 500 else g / 36
            | none => 500) := rfl

theorem perform_calculation_currency (market : Ocapi.MarketCode)
    (req : Ocapi.CalculationRequest) (al ua rid : Option String) (now : Nat) (st : Store) :
    respCurrency (Ocapi.perform_calculation market req al ua rid now st).1 =
      some (match Ocapi.findGrossListPrice req.vehicle.prices with
            | some price => price.currency
            | none => "EUR") := rfl


/-! ## The claims -/

/-- C1 is refuted at a concrete input: for the request whose price list
is exactly one entry `{id := "grossListPrice", rawValue := 0, currency :=
"USD"}`, the claim demands a rate of `0 / 36 = 0`, but
`perform_calculation` — whose rate expression `(gross_price / 36) if
gross_price else 500.0` treats the zero price as falsy — answers the
fallback rate 500. -/
theorem c1_counterexample :
    respRateData (Ocapi.perform_calculation Ocapi.MarketCode.DE reqZero
      none none none 0 initStore).1 = some 500 ∧
    (500 : ℚ) ≠ 0 / 36 := by
  constructor
  · rfl
  · norm_num

/-- C1 (amended): `perform_calculation` derives the monthly rate and
currency from the vehicle's price list as follows: if the first price
entry with id "grossListPrice" has a nonzero `rawValue`, the rate equals
that `rawValue / 36` and the currency equals that entry's currency; if
that entry's `rawValue` is zero the rate is the fallback 500.0 while the
currency is still the entry's currency; if no such entry exists the rate
is the fallback 500.0 and the currency defaults to "EUR".  In
particular, a price entry `{id := "grossListPrice", rawValue := 72000,
currency := "EUR"}` with market "de" yields the rate string
"2000.00 EUR". -/
theorem c1_amended :
    (∀ (market : Ocapi.MarketCode) (req : Ocapi.CalculationRequest)
       (al ua rid : Option String) (now : Nat) (st : Store) (p : Ocapi.PriceInfo),
       Ocapi.findGrossListPrice req.vehicle.prices = some p → p.rawValue ≠ 0 →
       respRateData (Ocapi.perform_calculation market req al ua rid now st).1
           = some (p.rawValue / 36) ∧
       respCurrency (Ocapi.perform_calculation market req al ua rid now st).1
           = some p.currency) ∧
    (∀ (market : Ocapi.MarketCode) (req : Ocapi.CalculationRequest)
       (al ua rid : Option String) (now : Nat) (st : Store) (p : Ocapi.PriceInfo),
       Ocapi.findGrossListPrice req.vehicle.prices = some p → p.rawValue = 0 →
       respRateData (Ocapi.perform_calculation market req al ua rid now st).1
           = some 500 ∧
       respCurrency (Ocapi.perform_calculation market req al ua rid now st).1
           = some p.currency) ∧
    (∀ (market : Ocapi.MarketCode) (req : Ocapi.CalculationRequest)
       (al ua rid : Option String) (now : Nat) (st : Store),
       Ocapi.findGrossListPrice req.vehicle.prices = none →
       respRateData (Ocapi.perform_calculation market req al ua rid now st).1
           = some 500 ∧
       respCurrency (Ocapi.perform_calculation market req al ua rid now st).1
           = some "EUR") ∧
    respRate (Ocapi.perform_calculation Ocapi.MarketCode.DE req72000
      none none none 0 initStore).1 = some "2000.00 EUR" := by
  refine ⟨?_, ?_, ?_, ?_⟩
  · intro market req al ua rid now st p hfind hnz
    rw [perform_calculation_rateData, perform_calculation_currency, hfind]
    simp [hnz]
  · intro market req al ua rid now st p hfind hz
    rw [perform_calculation_rateData, perform_calculation_currency, hfind]
    simp [hz]
  · intro market req al ua rid now st hfind
    rw [perform_calculation_rateData, perform_calculation_currency, hfind]
    simp
  · simp only [Ocapi.perform_calculation, respRate, Ocapi.findGrossListPrice,
      req72000, price72000]
    norm_num
    decide

/-- C1 witness: the nonzero branch of the amended claim evaluated at the
spec's 72000 EUR example. -/
theorem c1_amended_witness :
    respRateData (Ocapi.perform_calculation Ocapi.MarketCode.DE req72000
        none none none 0 initStore).1 = some ((72000 : ℚ) / 36) ∧
    respCurrency (Ocapi.perform_calculation Ocapi.MarketCode.DE req72000
        none none none 0 initStore).1 = some "EUR" :=
  c1_amended.1 Ocapi.MarketCode.DE req72000 none none none 0 initStore
    price72000 rfl (by norm_num [price72000])

/-- C2: the handler of `GET /customers/{id}/addresses` contradicts its
own docstring and route: on the store holding customer 1, the customer's
address 10 and the customer's contract 20, the endpoint answers the
contract list `[contract20]` even though the customer's addresses are
`[address10]`; for a customer id not present it does report 404. -/
theorem c2_theorem :
    get_customer_addresses 1 stC2 = Except.ok [contract20] ∧
    get_addresses_by_customer 1 stC2 = [address10] ∧
    get_customer_addresses 99 stC2 = Except.error 404 := by
  refine ⟨rfl, rfl, rfl⟩

/-- C3 is refuted at a concrete input: for the request whose customer
object is present but carries no `type`, the claim demands the default
customer type "private", but `perform_calculation` — whose expression
`customer.type if customer else CustomerType.PRIVATE` only defaults when
the whole customer object is absent — copies the absent type. -/
theorem c3_counterexample :
    respCustomerType (Ocapi.perform_calculation Ocapi.MarketCode.DE reqCustNoType
      none none none 0 initStore).1 = none ∧
    reqCustNoType.customer ≠ none ∧
    reqCustNoType.customer.bind Ocapi.Customer.type = none ∧
    (none : Option Ocapi.CustomerType) ≠ some Ocapi.CustomerType.PRIVATE := by
  refine ⟨rfl, by decide, rfl, by decide⟩

/-- C3 (amended): the financing-product descriptor of the response
copies the customer object's `type` field (present or not) whenever a
customer object is given, and carries the default type "private" exactly
when no customer object is given. -/
theorem c3_amended (market : Ocapi.MarketCode) (req : Ocapi.CalculationRequest)
    (al ua rid : Option String) (now : Nat) (st : Store) :
    respCustomerType (Ocapi.perform_calculation market req al ua rid now st).1 =
      (match req.customer with
       | some c => c.type
       | none => some Ocapi.CustomerType.PRIVATE) := by
  obtain ⟨veh, cust, inp, op⟩ := req
  cases cust <;> rfl

/-- C4: read-by-id for customer, address, contract and vehicle reports
404 for an id with no record; deleting a vehicle id that is present
succeeds and removes the record, and deleting the same id again reports
not found while leaving the store unchanged. -/
theorem c4_theorem (cid aid kid vid did : Nat) (st : Store) (v : VehicleModel)
    (hc : get_customer_by_id cid st = none)
    (ha : get_address_by_id aid st = none)
    (hk : get_contract_by_id kid st = none)
    (hv : get_vehicle_by_id vid st = none)
    (hd : get_vehicle_by_id did st = some v)
    (hnd : (st.vehicles.map VehicleModel.id).Nodup) :
    get_customer_by_id_endpoint cid st = Except.error 404 ∧
    get_address_by_id_endpoint aid st = Except.error 404 ∧
    get_contract_by_id_endpoint kid st = Except.error 404 ∧
    get_vehicle_by_id_endpoint vid st = Except.error 404 ∧
    (delete_vehicle did st).1 = true ∧
    get_vehicle_by_id did (delete_vehicle did st).2 = none ∧
    delete_vehicle did (delete_vehicle did st).2 = (false, (delete_vehicle did st).2) := by
  simp only [get_vehicle_by_id] at hd
  have herase : (eraseFirstVehicle st.vehicles did).find? (fun w => w.id == did) = none :=
    find?_eraseFirstVehicle st.vehicles did hnd
  have hdel : delete_vehicle did st
      = (true, { st with vehicles := eraseFirstVehicle st.vehicles did }) := by
    simp [delete_vehicle, hd]
  refine ⟨?_, ?_, ?_, ?_, ?_, ?_, ?_⟩
  · simp [get_customer_by_id_endpoint, hc]
  · simp [get_address_by_id_endpoint, ha]
  · simp [get_contract_by_id_endpoint, hk]
  · simp [get_vehicle_by_id_endpoint, hv]
  · rw [hdel]
  · rw [hdel]
    simpa [get_vehicle_by_id] using herase
  · rw [hdel]
    simp [delete_vehicle, herase]

/-- C4 witness: the theorem evaluated on a store holding only vehicle 7,
with 99 as the absent id. -/
theorem c4_witness :
    get_customer_by_id_endpoint 99 stC4 = Except.error 404 ∧
    get_address_by_id_endpoint 99 stC4 = Except.error 404 ∧
    get_contract_by_id_endpoint 99 stC4 = Except.error 404 ∧
    get_vehicle_by_id_endpoint 99 stC4 = Except.error 404 ∧
    (delete_vehicle 7 stC4).1 = true ∧
    get_vehicle_by_id 7 (delete_vehicle 7 stC4).2 = none ∧
    delete_vehicle 7 (delete_vehicle 7 stC4).2 = (false, (delete_vehicle 7 stC4).2) :=
  c4_theorem 99 99 99 99 7 stC4 vehicle7 rfl rfl rfl rfl rfl (by decide)

/-- Every operation preserves pairwise-distinct contract numbers: only
`create_contract` touches the contracts table, and it refuses a
duplicate `contractNumber`. -/
theorem step_preserves_contractNumbers_nodup (op : Op) (st : Store)
    (ih : (st.contracts.map Contract.contractNumber).Nodup) :
    ((step op st).contracts.map Contract.contractNumber).Nodup := by
  cases op with
  | createCustomer fn ln mob em now => simpa [step, create_customer] using ih
  | createAddress a now =>
      simp only [step, create_address]
      split <;> simpa using ih
  | createContract c now =>
      by_cases hdup :
          st.contracts.any (fun k => k.contractNumber == c.contractNumber) = true
      · simpa [step, create_contract, hdup] using ih
      · by_cases hfk :
            (st.customers.find? (fun cu => cu.id == c.customerId)).isSome = true
        · have hnotin :
              c.contractNumber ∉ st.contracts.map Contract.contractNumber := by
            intro hmem
            apply hdup
            rw [List.any_eq_true]
            obtain ⟨k, hkmem, hkeq⟩ := List.mem_map.mp hmem
            exact ⟨k, hkmem, by simp [hkeq]⟩
          simp only [step, create_contract, hdup, hfk, if_pos, if_neg,
            Bool.false_eq_true, not_false_eq_true]
          rw [List.map_append, List.nodup_append_comm]
          simp [ih, hnotin]
        · simpa [step, create_contract, hdup, hfk] using ih
  | createVehicle vdata now => simpa [step, create_vehicle] using ih
  | updateVehicle vid vdata now =>
      simp only [step, update_vehicle]
      cases st.vehicles.find? (fun v => v.id == vid) <;> simpa using ih
  | deleteVehicle vid =>
      simp only [step, delete_vehicle]
      cases st.vehicles.find? (fun v => v.id == vid) <;> simpa using ih
  | calculate m req al ua rid now =>
      simpa [step, Ocapi.perform_calculation] using ih

/-- C5: creating a contract whose `contractNumber` is already stored
fails with a unique-constraint violation and leaves the store unchanged,
and in every store state reachable through the system's operations the
stored contract numbers are pairwise distinct. -/
theorem c5_theorem :
    (∀ (contract_data : Contract) (now : Nat) (st : Store),
       st.contracts.any (fun k => k.contractNumber == contract_data.contractNumber) = true →
       create_contract contract_data now st = (Except.error DbError.uniqueViolation, st)) ∧
    (∀ st : Store, Reachable st → (st.contracts.map Contract.contractNumber).Nodup) := by
  constructor
  · intro c now st h
    simp [create_contract, h]
  · intro st h
    induction h with
    | init => simp [initStore]
    | next op hprev ih => exact step_preserves_contractNumbers_nodup op _ ih

/-- C5 witness: the duplicate-rejection branch evaluated on the store
holding contract "C-20", and the invariant at the initial store. -/
theorem c5_witness :
    create_contract contractDup 9 stC2 = (Except.error DbError.uniqueViolation, stC2) ∧
    (initStore.contracts.map Contract.contractNumber).Nodup :=
  ⟨c5_theorem.1 contractDup 9 stC2 (by decide),
   c5_theorem.2 initStore Reachable.init⟩

/-- C7 is refuted at a concrete input: updating vehicle 1 (stored with
`updated_at = 5`) with an empty set of provided fields changes the
returned vehicle's `updated_at` column to the current time 20, although
`updated_at` is a field of the vehicle that the request did not provide
and the claim says every such field is left unchanged. -/
theorem c7_counterexample :
    (update_vehicle 1 [] 20 stC7).1.map VehicleModel.updated_at = some 20 ∧
    (get_vehicle_by_id 1 stC7).map VehicleModel.updated_at = some 5 ∧
    (5 : Nat) ≠ 20 := by
  refine ⟨rfl, rfl, by decide⟩

/-- C7 (amended): for a vehicle id present in the store, `update_vehicle`
sets exactly the fields provided in the request to the given values,
leaves the id, `created_at` and every field not provided unchanged —
except the `updated_at` timestamp, which it always sets to the current
time — stores the updated row in place of the old one, and returns the
updated vehicle; for an id not present it returns no vehicle, translated
by the route layer into HTTP 404, and leaves the store unchanged. -/
theorem c7_amended :
    (∀ (vehicle_id : Nat) (vehicle_data : List (String × Option String)) (now : Nat)
       (st : Store) (v : VehicleModel),
       st.vehicles.find? (fun w => w.id == vehicle_id) = some v →
       (vehicle_data.map Prod.fst).Nodup →
       (∀ fv ∈ vehicle_data, (lookupAttr v.attrs fv.1).isSome) →
       ∃ v2, update_vehicle vehicle_id vehicle_data now st
           = (some v2, { st with vehicles := replaceFirstVehicle st.vehicles vehicle_id v2 }) ∧
         v2.id = v.id ∧ v2.created_at = v.created_at ∧ v2.updated_at = now ∧
         (∀ f val, (f, val) ∈ vehicle_data → lookupAttr v2.attrs f = some val) ∧
         (∀ f, f ∉ vehicle_data.map Prod.fst → lookupAttr v2.attrs f = lookupAttr v.attrs f)) ∧
    (∀ (vehicle_id : Nat) (vehicle_data : List (String × Option String)) (now : Nat)
       (st : Store),
       st.vehicles.find? (fun w => w.id == vehicle_id) = none →
       update_vehicle vehicle_id vehicle_data now st = (none, st) ∧
       update_vehicle_endpoint vehicle_id vehicle_data now st = (Except.error 404, st)) := by
  constructor
  · intro vid vdata now st v hfind hnd hhas
    refine ⟨{ v with attrs := applyFields v.attrs vdata, updated_at := now },
      ?_, rfl, rfl, rfl, ?_, ?_⟩
    · simp [update_vehicle, hfind]
    · intro f val hmem
      exact lookupAttr_applyFields_mem vdata v.attrs f val hnd hmem (hhas (f, val) hmem)
    · intro f hf
      exact lookupAttr_applyFields_not_mem vdata v.attrs f hf
  · intro vid vdata now st hfind
    constructor
    · simp [update_vehicle, hfind]
    · simp [update_vehicle_endpoint, update_vehicle, hfind]

/-- C7 witness: updating vehicle 1 with only a new `name` refreshes
`updated_at`, sets `name`, keeps the untouched `fin` column, and
updating the absent id 99 returns no vehicle with the store unchanged. -/
theorem c7_amended_witness :
    (update_vehicle 1 dumpName 20 stC7).1.map VehicleModel.updated_at = some 20 ∧
    (update_vehicle 1 dumpName 20 stC7).1.map (fun w => lookupAttr w.attrs "name")
        = some (some (some "B 200")) ∧
    (update_vehicle 1 dumpName 20 stC7).1.map (fun w => lookupAttr w.attrs "fin")
        = some (some none) ∧
    update_vehicle 99 [] 0 stC7 = (none, stC7) := by
  obtain ⟨v2, heq, hid, hcr, hup, hset, hkeep⟩ :=
    c7_amended.1 1 dumpName 20 stC7 vehicle1 rfl (by decide) (by decide)
  refine ⟨?_, ?_, ?_, (c7_amended.2 99 [] 0 stC7 rfl).1⟩
  · rw [heq]
    simpa using hup
  · rw [heq]
    simpa using hset "name" (some "B 200") (by decide)
  · rw [heq]
    have h1 := hkeep "fin" (by decide)
    have h2 : lookupAttr vehicle1.attrs "fin" = some none := rfl
    simpa using h1.trans h2

/-- C6: every call to `perform_calculation` appends exactly one audit
record, holding a copy of the full request payload, a copy of the full
response payload, the extracted scalar fields (gross price, calculated
rate, financial code, market) and a fresh token "mock_opaque_" followed
by the current Unix timestamp; and no operation of the system updates or
deletes an existing audit record — after any operation the previous
audit list is a prefix of the new one. -/
theorem c6_theorem :
    (∀ (market : Ocapi.MarketCode) (req : Ocapi.CalculationRequest)
       (al ua rid : Option String) (now : Nat) (st : Store),
       ∃ rec : Ocapi.OCAPICalculationModel,
         (Ocapi.perform_calculation market req al ua rid now st).2.calculations
             = st.calculations ++ [rec] ∧
         rec.request_payload = some req ∧
         rec.response_payload
             = some (Ocapi.perform_calculation market req al ua rid now st).1 ∧
         rec.gross_list_price
             = (Ocapi.findGrossListPrice req.vehicle.prices).map Ocapi.PriceInfo.rawValue ∧
         rec.calculated_rate
             = respRateData (Ocapi.perform_calculation market req al ua rid now st).1 ∧
         rec.financial_code = some ("mock_" ++ market.value ++ "_" ++ toString now) ∧
         rec.market = market.value ∧
         rec.opaque_token = some ("mock_opaque_" ++ toString now)) ∧
    (∀ (op : Op) (st : Store), st.calculations <+: (step op st).calculations) := by
  constructor
  · intro market req al ua rid now st
    exact ⟨_, rfl, rfl, rfl, rfl, rfl, rfl, rfl, rfl⟩
  · intro op st
    cases op with
    | createCustomer fn ln mob em now => exact List.prefix_rfl
    | createAddress a now =>
        simp only [step, create_address]
        split <;> exact List.prefix_rfl
    | createContract c now =>
        simp only [step, create_contract]
        split
        · exact List.prefix_rfl
        · split <;> exact List.prefix_rfl
    | createVehicle vdata now => exact List.prefix_rfl
    | updateVehicle vid vdata now =>
        simp only [step, update_vehicle]
        cases st.vehicles.find? (fun v => v.id == vid) <;> exact List.prefix_rfl
    | deleteVehicle vid =>
        simp only [step, delete_vehicle]
        cases st.vehicles.find? (fun v => v.id == vid) <;> exact List.prefix_rfl
    | calculate m req al ua rid now => exact List.prefix_append _ _

/-- C8: every calculation response carries code 200, the message
"Calculation successful (mock)", a financial code "mock_" ++ market ++
"_" ++ current Unix timestamp, a rate string that is the rate formatted
with two decimals followed by the currency, exactly one output section
whose two rows are the monthly rate and the fixed 36-month term, and
exactly one navigation link labelled "Close". -/
theorem c8_theorem (market : Ocapi.MarketCode) (req : Ocapi.CalculationRequest)
    (al ua rid : Option String) (now : Nat) (st : Store) :
    (Ocapi.perform_calculation market req al ua rid now st).1.code = some 200 ∧
    (Ocapi.perform_calculation market req al ua rid now st).1.message
        = some "Calculation successful (mock)" ∧
    ∃ o : Ocapi.Output,
      (Ocapi.perform_calculation market req al ua rid now st).1.output = some o ∧
      o.financialCode = some ("mock_" ++ market.value ++ "_" ++ toString now) ∧
      (∃ (r : ℚ) (c : String), o.rateData = some r ∧ o.currency = some c ∧
        o.rate = some (Ocapi.format2f r ++ " " ++ c)) ∧
      (∃ cont : Ocapi.OutputContainer, o.containers = [cont] ∧
        cont.items.map Ocapi.FinancingResultRow.id = [some "monthlyRate", some "term"] ∧
        cont.items.map Ocapi.FinancingResultRow.label = [some "Monthly Rate", some "Term"] ∧
        (cont.items.map Ocapi.FinancingResultRow.value).getLast? = some (some "36 months")) ∧
      o.links.map Ocapi.Link.label = [some "Close"] :=
  ⟨rfl, rfl, _, rfl, rfl, ⟨_, _, rfl, rfl, rfl⟩, ⟨_, rfl, rfl, rfl, rfl⟩, rfl⟩

/-- C9: when the price list holds several entries with id
"grossListPrice", `perform_calculation` takes gross price and currency
from the first such entry in list order, and the entries after the first
match have no effect on the response. -/
theorem c9_theorem (l1 l2 l2' : List Ocapi.PriceInfo) (e : Ocapi.PriceInfo)
    (market : Ocapi.MarketCode) (req : Ocapi.CalculationRequest)
    (al ua rid : Option String) (now : Nat) (st : Store)
    (h1 : ∀ p ∈ l1, p.id ≠ "grossListPrice") (he : e.id = "grossListPrice")
    (hreq : req.vehicle.prices = l1 ++ e :: l2) :
    Ocapi.findGrossListPrice req.vehicle.prices = some e ∧
    respCurrency (Ocapi.perform_calculation market req al ua rid now st).1
        = some e.currency ∧
    respRateData (Ocapi.perform_calculation market req al ua rid now st).1
        = some (if e.rawValue = 0 then (500 : ℚ) else e.rawValue / 36) ∧
    (Ocapi.perform_calculation market req al ua rid now st).1
        = (Ocapi.perform_calculation market (setPrices req (l1 ++ e :: l2'))
            al ua rid now st).1 := by
  have hfind : Ocapi.findGrossListPrice req.vehicle.prices = some e := by
    rw [hreq]
    exact findGrossListPrice_first l1 l2 e h1 he
  have hfind2 :
      Ocapi.findGrossListPrice (setPrices req (l1 ++ e :: l2')).vehicle.prices = some e := by
    simp only [setPrices]
    exact findGrossListPrice_first l1 l2' e h1 he
  refine ⟨hfind, ?_, ?_, ?_⟩
  · rw [perform_calculation_currency, hfind]
  · rw [perform_calculation_rateData, hfind]
    simp
  · simp only [Ocapi.perform_calculation, setPrices]
    rw [hfind]
    rw [show Ocapi.findGrossListPrice
          ({ req with vehicle := { req.vehicle with prices := l1 ++ e :: l2' } } :
            Ocapi.CalculationRequest).vehicle.prices = some e from hfind2]

/-- C9 witness: the theorem evaluated on the price list holding a
non-matching entry, then the 72000 EUR gross-list-price entry, then a
second matching 48000 CHF entry; the tail entry is dropped without
changing the response. -/
theorem c9_witness :
    Ocapi.findGrossListPrice reqShadowed.vehicle.prices = some price72000 ∧
    respCurrency (Ocapi.perform_calculation Ocapi.MarketCode.DE reqShadowed
        none none none 0 initStore).1 = some price72000.currency ∧
    respRateData (Ocapi.perform_calculation Ocapi.MarketCode.DE reqShadowed
        none none none 0 initStore).1
        = some (if price72000.rawValue = 0 then (500 : ℚ) else price72000.rawValue / 36) ∧
    (Ocapi.perform_calculation Ocapi.MarketCode.DE reqShadowed
        none none none 0 initStore).1
        = (Ocapi.perform_calculation Ocapi.MarketCode.DE
            (setPrices reqShadowed ([priceOther] ++ price72000 :: []))
            none none none 0 initStore).1 :=
  c9_theorem [priceOther] [price48000] [] price72000 Ocapi.MarketCode.DE reqShadowed
    none none none 0 initStore (by decide) rfl rfl

/-- C10: two calls to `perform_calculation` with the same market,
request, timestamp and store but different `accept_language`,
`user_agent` or `request_id` headers return identical responses — the
headers flow only into the persisted audit record, never into the
response. -/
theorem c10_theorem (market : Ocapi.MarketCode) (req : Ocapi.CalculationRequest)
    (al1 ua1 rid1 al2 ua2 rid2 : Option String) (now : Nat) (st : Store) :
    (Ocapi.perform_calculation market req al1 ua1 rid1 now st).1
      = (Ocapi.perform_calculation market req al2 ua2 rid2 now st).1 := rfl
